import Mathlib

/-!
Verification of the isigim single-page client: the LoginPage form controller,
the demo Login component, and the static Home page card renderer.

Observable side effects (console output and antd notifications) are modelled
as an explicit event list; component state ("useState" cells) is an explicit
record threaded through a step function, one step per user-interaction event.
-/

namespace Isigim

/-- Observable side effects of the UI components: console output
(`console.log` / `console.error`) and antd user-facing notifications
(`message.success` / `message.error`). -/
inductive Event where
  | consoleLog (text : String)
  | consoleError (text : String)
  | messageSuccess (text : String)
  | messageError (text : String)
deriving DecidableEq, Repr

/-- Console output events (developer-facing diagnostics). -/
def Event.isConsole : Event → Bool
  | .consoleLog _ => true
  | .consoleError _ => true
  | _ => false

/-- User-facing notifications (antd `message.success` / `message.error`). -/
def Event.isNotification : Event → Bool
  | .messageSuccess _ => true
  | .messageError _ => true
  | _ => false

/-- Success notifications. -/
def Event.isSuccess : Event → Bool
  | .messageSuccess _ => true
  | _ => false

/-- Failure notifications. -/
def Event.isFailure : Event → Bool
  | .messageError _ => true
  | _ => false

/-- Number of success notifications in an event trace. -/
def countSuccess (evs : List Event) : Nat :=
  (evs.filter Event.isSuccess).length

/-- Number of failure notifications in an event trace. -/
def countFailure (evs : List Event) : Nat :=
  (evs.filter Event.isFailure).length

/-- Number of user-facing notifications in an event trace. -/
def countNotifications (evs : List Event) : Nat :=
  (evs.filter Event.isNotification).length

/-- Number of console-output events in an event trace. -/
def countConsole (evs : List Event) : Nat :=
  (evs.filter Event.isConsole).length

/-- The user-facing part of an event trace: its notifications, in order. -/
def notifications (evs : List Event) : List Event :=
  evs.filter Event.isNotification

/-- The payload captured by the Ant Design form layer and passed to
`onFinish` as its `values` argument (fields named by the two
`Form.Item name=...` declarations). -/
structure FormValues where
  username : String
  password : String
deriving DecidableEq, Repr

/-- How the `values` payload is rendered into the debug console line
`console.log('Form values (do AntD):', values)`. -/
def formValuesText (v : FormValues) : String :=
  "Form values (do AntD): \x7b username: " ++ v.username ++
    ", password: " ++ v.password ++ " \x7d"

/-- The ad-hoc `useState` cells of `LoginPage`: `username`, `password`
and the declared-but-never-read `loading` flag. -/
structure LoginState where
  username : String
  password : String
  loading : Bool
deriving DecidableEq, Repr

/-- `validatePassword` from LoginPage.tsx: rejects passwords shorter
than 8 characters, accepts all others. -/
def validatePassword (pass : String) : Bool :=
  if pass.length < 8 then false else true

/-- `onFinish` from LoginPage.tsx as an event trace: logs the form
payload, then decides on the ad-hoc state (`password`, `username` from
`useState`, the `values` argument is ignored by the decision): on
`validatePassword(password) && username === 'admin'` it emits
`message.success`, otherwise `console.error` plus `message.error`. -/
def onFinish (values : FormValues) (s : LoginState) : List Event :=
  Event.consoleLog (formValuesText values) ::
    (if validatePassword s.password && s.username == "admin" then
      [Event.messageSuccess ("Login bem-sucedido!")]
    else
      [Event.consoleError ("Falha no login. Verifique os dados."),
       Event.messageError ("Usuário ou senha inválidos.")])

/-- User-interaction events handled by `LoginPage`: a keystroke in the
username field (`handleUsernameChange`), a keystroke in the password
field (the inline `onChange`), or a form submission (`onFinish`). -/
inductive LoginAction where
  | changeUsername (v : String)
  | changePassword (v : String)
  | submit (values : FormValues)

/-- One step of the `LoginPage` component: the handler run for each
user-interaction event, returning the next state and the side effects
produced. `handleUsernameChange` only calls `setUsername`, the password
`onChange` only calls `setPassword` (neither logs anything), and
`onFinish` calls no state setter at all. -/
def loginStep (s : LoginState) : LoginAction → LoginState × List Event
  | .changeUsername v => ({ s with username := v }, [])
  | .changePassword v => ({ s with password := v }, [])
  | .submit values => (s, onFinish values s)

/-- The `useState` cells of the demo `Login` component. -/
structure DemoState where
  email : String
  password : String
deriving DecidableEq, Repr

/-- User-interaction events handled by the demo `Login` component. -/
inductive DemoAction where
  | changeEmail (v : String)
  | changePassword (v : String)
  | entrar

/-- `handleEntrar` from the demo `Login` component: two `console.log`
calls and nothing else — no notification, no state change. -/
def handleEntrar (s : DemoState) : List Event :=
  [Event.consoleLog ("email: " ++ s.email),
   Event.consoleLog ("password: " ++ s.password)]

/-- One step of the demo `Login` component. The two `useEffect` hooks
with `[email]` / `[password]` dependency arrays log the new value after
a render in which it changed; React bails out (no re-render, no effect)
when the setter receives a value equal to the current one. -/
def demoStep (s : DemoState) : DemoAction → DemoState × List Event
  | .changeEmail v =>
      ({ s with email := v },
        if v == s.email then [] else [Event.consoleLog v])
  | .changePassword v =>
      ({ s with password := v },
        if v == s.password then [] else [Event.consoleLog v])
  | .entrar => (s, handleEntrar s)

/-- The record type of one entry of `techStackData` (interface
`TechInfo` in Home.tsx). -/
structure TechInfo where
  id : String
  name : String
  logoUrl : String
  description : String
deriving DecidableEq, Repr

/-- The static `techStackData` array from Home.tsx. -/
def techStackData : List TechInfo :=
  [{ id := "vite",
     name := "Vite",
     logoUrl := "https://vitejs.dev/logo.svg",
     description := "Um \"build tool\" para front-end moderno que oferece uma experiência de desenvolvimento extremamente rápida, com Hot Module Replacement (HMR) instantâneo." },
   { id := "react",
     name := "React",
     logoUrl := "https://upload.wikimedia.org/wikipedia/commons/a/a7/React-icon.svg",
     description := "Uma biblioteca JavaScript declarativa, eficiente e flexível para criar interfaces de usuário (UIs) complexas, baseada em componentes reutilizáveis." },
   { id := "typescript",
     name := "TypeScript",
     logoUrl := "https://upload.wikimedia.org/wikipedia/commons/4/4c/Typescript_logo_2020.svg",
     description := "Um superset do JavaScript que adiciona tipagem estática opcional. Ajuda a construir aplicações robustas, detectar erros em tempo de compilação e melhorar a manutenibilidade." },
   { id := "ant-design",
     name := "Ant Design (antd)",
     logoUrl := "https://gw.alipayobjects.com/zos/rmsportal/KDpgvguMpGfqaHPjicRK.svg",
     description := "Uma biblioteca de componentes de UI para React, seguindo a linguagem de design Ant. Oferece um conjunto rico de componentes de alta qualidade e prontos para uso." }]

/-- One rendered card of the Home view: the React `key` on the `Col`,
the `Avatar`'s `src` and `alt`, the `Card.Meta` title and description. -/
structure TechCard where
  key : String
  avatarSrc : String
  avatarAlt : String
  title : String
  description : String
deriving DecidableEq, Repr

/-- The card produced for one tech descriptor inside
`renderTechCards`'s `techStackData.map`. -/
def renderTechCard (tech : TechInfo) : TechCard :=
  { key := tech.id,
    avatarSrc := tech.logoUrl,
    avatarAlt := tech.name ++ " Logo",
    title := tech.name,
    description := tech.description }

/-- `renderTechCards` from Home.tsx: maps the static list to cards. -/
def renderTechCards : List TechCard :=
  techStackData.map renderTechCard

/-- The boolean submit condition of `onFinish` holds exactly when the
held secret has length at least 8 and the held identifier is `admin`. -/
lemma submitCond_iff (s : LoginState) :
    (validatePassword s.password && s.username == "admin") = true ↔
      8 ≤ s.password.length ∧ s.username = "admin" := by
  unfold validatePassword
  by_cases h : s.password.length < 8
  · simp [h]
  · simp [h]
    omega

/-- C1: for every submission of the login form, `onFinish` emits a success
notification if and only if the held secret has length at least 8 and the
held identifier equals the fixed literal `admin`; in every other case it
emits a failure notification. -/
theorem c1_submit_success_iff (values : FormValues) (s : LoginState) :
    (countSuccess (onFinish values s) = 1 ↔
        8 ≤ s.password.length ∧ s.username = "admin") ∧
    (countFailure (onFinish values s) = 1 ↔
        ¬(8 ≤ s.password.length ∧ s.username = "admin")) := by
  cases hb : (validatePassword s.password && (s.username == "admin"))
  · have hp : ¬(8 ≤ s.password.length ∧ s.username = "admin") := by
      intro hc
      have := (submitCond_iff s).mpr hc
      simp [hb] at this
    simp [onFinish, hb, countSuccess, countFailure, Event.isSuccess,
      Event.isFailure, hp]
  · have hp := (submitCond_iff s).mp hb
    have hv : validatePassword s.password = true := (Bool.and_eq_true _ _ |>.mp hb).1
    simp [onFinish, hb, hv, countSuccess, countFailure, Event.isSuccess,
      Event.isFailure, hp]

/-- C2 counterexample: in the LoginPage variant a keystroke that updates the
identifier field (here from the empty string to `a`) runs
`handleUsernameChange`, which only calls `setUsername` — no console output
is produced, refuting the claim that both variants log on every state
change. -/
theorem c2_counterexample :
    (loginStep ⟨"", "", false⟩ (LoginAction.changeUsername ("a"))).2 = [] ∧
    countConsole ((loginStep ⟨"", "", false⟩
      (LoginAction.changeUsername ("a"))).2) = 0 :=
  ⟨rfl, rfl⟩

/-- C2 amended: console output is produced unconditionally on every
submission in both variants, and on every state change of an input field in
the demo Login variant (via its `useEffect` hooks); the LoginPage variant
produces no console output on state changes of either field. -/
theorem c2_console_on_events (s : LoginState) (values : FormValues)
    (d : DemoState) (v : String) :
    1 ≤ countConsole ((loginStep s (LoginAction.submit values)).2) ∧
    1 ≤ countConsole ((demoStep d DemoAction.entrar).2) ∧
    (v ≠ d.email →
      1 ≤ countConsole ((demoStep d (DemoAction.changeEmail v)).2)) ∧
    (v ≠ d.password →
      1 ≤ countConsole ((demoStep d (DemoAction.changePassword v)).2)) ∧
    (loginStep s (LoginAction.changeUsername v)).2 = [] ∧
    (loginStep s (LoginAction.changePassword v)).2 = [] := by
  refine ⟨?_, ?_, ?_, ?_, rfl, rfl⟩
  · cases hb : (validatePassword s.password && (s.username == "admin")) <;>
      simp [loginStep, onFinish, hb, countConsole, Event.isConsole]
  · simp [demoStep, handleEntrar, countConsole, Event.isConsole]
  · intro hv
    have hb : (v == d.email) = false := by simp [hv]
    simp [demoStep, hb, countConsole, Event.isConsole]
  · intro hv
    have hb : (v == d.password) = false := by simp [hv]
    simp [demoStep, hb, countConsole, Event.isConsole]

/-- C2 witness: the state-change conjuncts of `c2_console_on_events`
instantiated at a concrete demo state and keystroke value. -/
theorem c2_console_on_events_witness :
    1 ≤ countConsole ((demoStep ⟨"", ""⟩ (DemoAction.changeEmail ("a"))).2) ∧
    1 ≤ countConsole ((demoStep ⟨"", ""⟩
      (DemoAction.changePassword ("b"))).2) :=
  ⟨(c2_console_on_events ⟨"", "", false⟩ ⟨"", ""⟩ ⟨"", ""⟩ ("a")).2.2.1
      (by decide),
   (c2_console_on_events ⟨"", "", false⟩ ⟨"", ""⟩ ⟨"", ""⟩ ("b")).2.2.2.1
      (by decide)⟩

/-- C3 counterexample: invoking the demo Login variant's `handleEntrar` at a
concrete state produces zero notifications — it only logs to the console —
refuting the claim that it shows a notification in addition to its logs. -/
theorem c3_counterexample :
    countNotifications ((demoStep ⟨"user", "12345678"⟩
      DemoAction.entrar).2) = 0 :=
  rfl

/-- C3 amended: every login action only logs to a console and, in the
LoginPage variant, shows exactly one user-facing notification (success or
failure); the demo Login variant's `handleEntrar` shows no notification at
all, its only effects being console logs. -/
theorem c3_login_action_effects (values : FormValues) (s : LoginState)
    (d : DemoState) :
    countNotifications (onFinish values s) = 1 ∧
    (onFinish values s).all
      (fun e => e.isConsole || e.isNotification) = true ∧
    countNotifications ((demoStep d DemoAction.entrar).2) = 0 ∧
    ((demoStep d DemoAction.entrar).2).all Event.isConsole = true := by
  refine ⟨?_, ?_, rfl, rfl⟩
  · cases hb : (validatePassword s.password && (s.username == "admin")) <;>
      simp [onFinish, hb, countNotifications, Event.isNotification]
  · cases hb : (validatePassword s.password && (s.username == "admin")) <;>
      simp [onFinish, hb, Event.isConsole, Event.isNotification]

/-- C4: the three concrete scenarios — `admin`/`password123` yields exactly
one success notification (and no failure), `guest`/`password123` and
`admin`/`short` each yield exactly one failure notification (and no
success). -/
theorem c4_concrete_scenarios :
    (countSuccess (onFinish ⟨"admin", "password123"⟩
        ⟨"admin", "password123", false⟩) = 1 ∧
      countFailure (onFinish ⟨"admin", "password123"⟩
        ⟨"admin", "password123", false⟩) = 0) ∧
    (countFailure (onFinish ⟨"guest", "password123"⟩
        ⟨"guest", "password123", false⟩) = 1 ∧
      countSuccess (onFinish ⟨"guest", "password123"⟩
        ⟨"guest", "password123", false⟩) = 0) ∧
    (countFailure (onFinish ⟨"admin", "short"⟩
        ⟨"admin", "short", false⟩) = 1 ∧
      countSuccess (onFinish ⟨"admin", "short"⟩
        ⟨"admin", "short", false⟩) = 0) :=
  ⟨⟨rfl, rfl⟩, ⟨rfl, rfl⟩, ⟨rfl, rfl⟩⟩

/-- C5: for every secret of length strictly less than 8 and every
identifier, a submission yields a failure notification (and no success
notification). -/
theorem c5_short_secret_fails (values : FormValues) (s : LoginState)
    (h : s.password.length < 8) :
    countFailure (onFinish values s) = 1 ∧
    countSuccess (onFinish values s) = 0 := by
  have hb : validatePassword s.password = false := by
    simp [validatePassword, h]
  simp [onFinish, hb, countFailure, countSuccess, Event.isFailure,
    Event.isSuccess]

/-- C5 witness: `c5_short_secret_fails` at the concrete 5-character secret
`short` with identifier `guest`. -/
theorem c5_short_secret_fails_witness :
    countFailure (onFinish ⟨"guest", "short"⟩ ⟨"guest", "short", false⟩) = 1 ∧
    countSuccess (onFinish ⟨"guest", "short"⟩ ⟨"guest", "short", false⟩) = 0 :=
  c5_short_secret_fails ⟨"guest", "short"⟩ ⟨"guest", "short", false⟩
    (by decide)

/-- C6: rendering the Home view over the static `techStackData` list
produces exactly as many cards as descriptors, each card displaying its
descriptor's name, logoUrl and description, and the rendering keys (the
descriptors' `id` fields) are pairwise distinct within the list. -/
theorem c6_home_cards :
    renderTechCards.length = techStackData.length ∧
    renderTechCards.map (fun c => (c.title, c.avatarSrc, c.description)) =
      techStackData.map (fun t => (t.name, t.logoUrl, t.description)) ∧
    renderTechCards.map TechCard.key = techStackData.map TechInfo.id ∧
    (techStackData.map TechInfo.id).Nodup := by
  refine ⟨rfl, rfl, rfl, ?_⟩
  decide

/-- C7: in both variants, the identifier mutator leaves the stored secret
unchanged and the secret mutator leaves the stored identifier unchanged,
for every keystroke value. -/
theorem c7_field_independence (v : String) (s : LoginState) (d : DemoState) :
    (loginStep s (LoginAction.changeUsername v)).1.password = s.password ∧
    (loginStep s (LoginAction.changePassword v)).1.username = s.username ∧
    (demoStep d (DemoAction.changeEmail v)).1.password = d.password ∧
    (demoStep d (DemoAction.changePassword v)).1.email = d.email :=
  ⟨rfl, rfl, rfl, rfl⟩

/-- C8: on every validation failure (secret too short or identifier
mismatch) the only user-facing report is the single generic notification
`Usuário ou senha inválidos.` — one fixed text for all failing states, so
it cannot identify which field was wrong, and no field-level feedback is
produced. -/
theorem c8_generic_failure_only (values : FormValues) (s : LoginState)
    (h : ¬(8 ≤ s.password.length ∧ s.username = "admin")) :
    notifications (onFinish values s) =
      [Event.messageError ("Usuário ou senha inválidos.")] := by
  have hb : (validatePassword s.password && (s.username == "admin")) = false := by
    cases hb : (validatePassword s.password && (s.username == "admin"))
    · rfl
    · exact absurd ((submitCond_iff s).mp hb) h
  simp [onFinish, notifications, hb, Event.isNotification]

/-- C8 witness: `c8_generic_failure_only` at the identifier-mismatch state
`guest`/`password123`. -/
theorem c8_generic_failure_only_witness :
    notifications (onFinish ⟨"guest", "password123"⟩
        ⟨"guest", "password123", false⟩) =
      [Event.messageError ("Usuário ou senha inválidos.")] :=
  c8_generic_failure_only ⟨"guest", "password123"⟩
    ⟨"guest", "password123", false⟩ (by decide)

/-- C9: the notifications emitted by `onFinish` are independent of its
`values` argument — for any two form payloads submitted over the same
ad-hoc `useState` state, the emitted notifications coincide, because the
decision reads only the `useState` copies. -/
theorem c9_values_irrelevant (v1 v2 : FormValues) (s : LoginState) :
    notifications (onFinish v1 s) = notifications (onFinish v2 s) := by
  cases hb : (validatePassword s.password && (s.username == "admin")) <;>
    simp [onFinish, notifications, hb, Event.isNotification]

/-- C10: submission never mutates form state — `onFinish` leaves the
stored username, password and loading flag unchanged, and `handleEntrar`
leaves the stored email and password unchanged, on every held state. -/
theorem c10_submission_preserves_state (values : FormValues)
    (s : LoginState) (d : DemoState) :
    (loginStep s (LoginAction.submit values)).1.username = s.username ∧
    (loginStep s (LoginAction.submit values)).1.password = s.password ∧
    (loginStep s (LoginAction.submit values)).1.loading = s.loading ∧
    (demoStep d DemoAction.entrar).1.email = d.email ∧
    (demoStep d DemoAction.entrar).1.password = d.password :=
  ⟨rfl, rfl, rfl, rfl, rfl⟩

end Isigim
